import Mathlib

/-!
Verification of the 3D scene editor (`src/unnamed/part_000`) against its
specification.  The editor's geometry, snap engine, selection state machine
and import / dimension-edit flows are shallowly embedded over exact
rationals (`ℚ`); positions and axis-aligned boxes are world-space values.

Conventions of the embedding:
* `THREE.Vector3` becomes `Vec3` with rational components.
* `THREE.Box3` becomes `Box3` (min/max corners).  A `Box3` produced by
  `setFromObject` is either empty (no geometry) or proper; the empty case is
  represented by `Option.none`, matching every `box.isEmpty()` test in the
  source.
* An `Object3D` carries its identity, position, per-axis scale, and the
  axis-aligned box of its unscaled geometry (`naturalBox`); the world box is
  recomputed on demand exactly as `getObjectAABB` forces a world-matrix
  update and recomputes the box.
-/

structure Vec3 where
  x : ℚ
  y : ℚ
  z : ℚ
deriving DecidableEq, Repr

instance : Add Vec3 :=
  ⟨fun a b => ⟨a.x + b.x, a.y + b.y, a.z + b.z⟩⟩

theorem Vec3.add_def (a b : Vec3) :
    a + b = ⟨a.x + b.x, a.y + b.y, a.z + b.z⟩ := rfl

inductive Axis where
  | x
  | y
  | z
deriving DecidableEq, Repr

def Vec3.get (v : Vec3) : Axis → ℚ
  | .x => v.x
  | .y => v.y
  | .z => v.z

def Vec3.set (v : Vec3) : Axis → ℚ → Vec3
  | .x, q => ⟨q, v.y, v.z⟩
  | .y, q => ⟨v.x, q, v.z⟩
  | .z, q => ⟨v.x, v.y, q⟩

/-- The vector that is `d` on axis `a` and zero elsewhere; models
`snapVector[bestSnapDelta.axis] = bestSnapDelta.delta` on a zero vector. -/
def axisVec : Axis → ℚ → Vec3
  | .x, d => ⟨d, 0, 0⟩
  | .y, d => ⟨0, d, 0⟩
  | .z, d => ⟨0, 0, d⟩

structure Box3 where
  min : Vec3
  max : Vec3
deriving DecidableEq, Repr

def Box3.translate (b : Box3) (v : Vec3) : Box3 :=
  ⟨b.min + v, b.max + v⟩

/-- `box.getSize()`: extents on each axis. -/
def Box3.size (b : Box3) : Vec3 :=
  ⟨b.max.x - b.min.x, b.max.y - b.min.y, b.max.z - b.min.z⟩

structure Object3D where
  id : ℕ
  position : Vec3
  scale : Vec3
  naturalBox : Option Box3
deriving DecidableEq, Repr

/-- Per-axis lower bound of a scaled interval (handles negative scale the way
an axis-aligned transform of a box does). -/
def scaleLo (s lo hi : ℚ) : ℚ := min (s * lo) (s * hi)

def scaleHi (s lo hi : ℚ) : ℚ := max (s * lo) (s * hi)

/-- `getObjectAABB`: force world transform and compute the world-space
axis-aligned box.  With a scale-and-translate transform this is the natural
box scaled per axis and shifted by the position; `none` models the empty box
of an object without geometry. -/
def getObjectAABB (o : Object3D) : Option Box3 :=
  o.naturalBox.map fun b =>
    ⟨⟨scaleLo o.scale.x b.min.x b.max.x + o.position.x,
      scaleLo o.scale.y b.min.y b.max.y + o.position.y,
      scaleLo o.scale.z b.min.z b.max.z + o.position.z⟩,
     ⟨scaleHi o.scale.x b.min.x b.max.x + o.position.x,
      scaleHi o.scale.y b.min.y b.max.y + o.position.y,
      scaleHi o.scale.z b.min.z b.max.z + o.position.z⟩⟩

/-- `getObjectDimensions`: box extents, or the zero vector for an empty box. -/
def getObjectDimensions (o : Object3D) : Vec3 :=
  match getObjectAABB o with
  | none => ⟨0, 0, 0⟩
  | some b => b.size

def SNAP_THRESHOLD : ℚ := 1 / 5

/-- The overlap gate of `applySnapAdjustment`: for a check on `axis`, the
source and target boxes must strictly overlap on the other two axes. -/
def snapOverlaps (axis : Axis) (sa tb : Box3) : Bool :=
  match axis with
  | .x => decide (sa.min.y < tb.max.y ∧ sa.max.y > tb.min.y ∧
                  sa.min.z < tb.max.z ∧ sa.max.z > tb.min.z)
  | .z => decide (sa.min.y < tb.max.y ∧ sa.max.y > tb.min.y ∧
                  sa.min.x < tb.max.x ∧ sa.max.x > tb.min.x)
  | .y => decide (sa.min.x < tb.max.x ∧ sa.max.x > tb.min.x ∧
                  sa.min.z < tb.max.z ∧ sa.max.z > tb.min.z)

/-- The six face-to-face alignment checks of `applySnapAdjustment`, in source
order: x, x, z, z, y, y. -/
def snapChecks (sa tb : Box3) : List (Axis × ℚ) :=
  [(.x, tb.min.x - sa.max.x), (.x, tb.max.x - sa.min.x),
   (.z, tb.min.z - sa.max.z), (.z, tb.max.z - sa.min.z),
   (.y, tb.min.y - sa.max.y), (.y, tb.max.y - sa.min.y)]

/-- One iteration of the inner check loop: accumulator is
`(bestSnapDelta, minSnapDistSq)`. -/
def snapStep (sa tb : Box3) (acc : Option (Axis × ℚ) × ℚ) (c : Axis × ℚ) :
    Option (Axis × ℚ) × ℚ :=
  if c.2 * c.2 < acc.2 ∧ snapOverlaps c.1 sa tb = true then
    (some c, c.2 * c.2)
  else acc

/-- One iteration of the outer target loop: skip the source itself and
targets with empty boxes, otherwise run the six checks. -/
def snapFoldTarget (src : Object3D) (sa : Box3)
    (acc : Option (Axis × ℚ) × ℚ) (t : Object3D) : Option (Axis × ℚ) × ℚ :=
  if t.id = src.id then acc
  else
    match getObjectAABB t with
    | none => acc
    | some tb => (snapChecks sa tb).foldl (snapStep sa tb) acc

/-- The object-to-object scan of `applySnapAdjustment` (step 1 of the
algorithm), starting from `minSnapDistSq = SNAP_THRESHOLD²`. -/
def snapObjectScan (src : Object3D) (sa : Box3) (others : List Object3D) :
    Option (Axis × ℚ) × ℚ :=
  others.foldl (snapFoldTarget src sa) (none, SNAP_THRESHOLD * SNAP_THRESHOLD)

/-- The snap decision of `applySnapAdjustment`: object scan, then the ground
check (`groundDistSq < minSnapDistSq && |groundDist| < SNAP_THRESHOLD`). -/
def snapDecision (src : Object3D) (others : List Object3D) :
    Option (Axis × ℚ) :=
  match getObjectAABB src with
  | none => none
  | some sa =>
    let r := snapObjectScan src sa others
    let gd := sa.min.y
    if gd * gd < r.2 ∧ |gd| < SNAP_THRESHOLD then some (.y, -gd)
    else r.1

/-- `applySnapAdjustment`: apply the selected delta on its single axis, or
leave the object untouched when no snap was found. -/
def applySnapAdjustment (src : Object3D) (others : List Object3D) : Object3D :=
  match snapDecision src others with
  | none => src
  | some c => { src with position := src.position + axisVec c.1 c.2 }

/-! ### Selection, registry and editor state -/

def BOX_HELPER_COLOR_INACTIVE : ℕ := 0xaaaaaa

def BOX_HELPER_COLOR_ACTIVE : ℕ := 0x0000ff

/-- The mutable visual state of a `THREE.BoxHelper`. -/
structure HelperState where
  color : ℕ
  visible : Bool
deriving DecidableEq, Repr

/-- One entry of `loadedObjects`: the object, its `initialSize` captured
when imported, the `selected` CSS class of its list row, and its helper. -/
structure ObjectData where
  obj : Object3D
  initialSize : Vec3
  selectedClass : Bool
  helper : HelperState
deriving DecidableEq, Repr

inductive TMode where
  | translate
  | rotate
  | scale
deriving DecidableEq, Repr

/-- The module-level mutable state of the editor.  `selected` holds the id of
`selectedObjectData`'s object (`none` when null), `attached` the id of the
object the transform gizmo is attached to. -/
structure EditorState where
  loadedObjects : List ObjectData
  selected : Option ℕ
  isDragging : Bool
  orbitEnabled : Bool
  mode : TMode
  attached : Option ℕ
  nextId : ℕ
  nameCounter : ℕ
deriving DecidableEq, Repr

/-- `updateBoxHelperState`: selected helpers are active-colored and always
visible; others are inactive-colored and visible only while dragging. -/
def updateBoxHelperState (d : ObjectData) (isSel isDrag : Bool) : ObjectData :=
  if isSel then { d with helper := ⟨BOX_HELPER_COLOR_ACTIVE, true⟩ }
  else { d with helper := ⟨BOX_HELPER_COLOR_INACTIVE, isDrag⟩ }

/-- `setTransformMode`: no-op without a selection; otherwise set the mode and
refresh every helper (others visible only during a translate-mode drag). -/
def setTransformMode (st : EditorState) (m : TMode) : EditorState :=
  match st.selected with
  | none => st
  | some _ =>
    { st with
      mode := m
      loadedObjects := st.loadedObjects.map fun (d : ObjectData) =>
        updateBoxHelperState d (st.selected = some d.obj.id)
          (st.isDragging && m = TMode.translate) }

/-- `deselectObject`: clear the current selection's row class and helper and
detach the gizmo; then, if a drag was in progress, clear the drag flag,
re-enable orbit and hide every helper. -/
def deselectObject (st : EditorState) : EditorState :=
  let st1 :=
    match st.selected with
    | some i =>
      { st with
        selected := none
        attached := none
        loadedObjects := st.loadedObjects.map fun (d : ObjectData) =>
          if d.obj.id = i then
            updateBoxHelperState { d with selectedClass := false } false false
          else d }
    | none => st
  if st1.isDragging then
    { st1 with
      isDragging := false
      orbitEnabled := true
      loadedObjects := st1.loadedObjects.map fun (d : ObjectData) =>
        updateBoxHelperState d false false }
  else st1

/-- `selectObject`: no-op when the object is unregistered or already
selected; otherwise deselect the previous object, mark the new row selected,
attach the gizmo, default the mode to translate, and activate the new
object's helper. -/
def selectObject (st : EditorState) (i : ℕ) : EditorState :=
  match st.loadedObjects.find? (fun d => d.obj.id = i) with
  | none => st
  | some _ =>
    if st.selected = some i then st
    else
      let st1 := deselectObject st
      let st2 :=
        { st1 with
          selected := some i
          attached := some i
          loadedObjects := st1.loadedObjects.map fun (d : ObjectData) =>
            if d.obj.id = i then { d with selectedClass := true } else d }
      let st3 := setTransformMode st2 TMode.translate
      { st3 with
        loadedObjects := st3.loadedObjects.map fun (d : ObjectData) =>
          if d.obj.id = i then updateBoxHelperState d true st3.isDragging
          else d }

inductive SelOp where
  | select (i : ℕ)
  | deselect
deriving DecidableEq, Repr

def applySelOps (ops : List SelOp) (st : EditorState) : EditorState :=
  ops.foldl
    (fun s op =>
      match op with
      | .select i => selectObject s i
      | .deselect => deselectObject s)
    st

/-! ### Import and dimension editing -/

/-- The three `prompt`/`parseFloat` results of an import or edit flow: the
outer `none` is a cancelled prompt, the inner `none` a non-numeric entry. -/
def parsePrompts (wP hP dP : Option (Option ℚ)) : Option (ℚ × ℚ × ℚ) :=
  match wP with
  | none => none
  | some w? =>
    match hP with
    | none => none
    | some h? =>
      match dP with
      | none => none
      | some d? =>
        match w?, h?, d? with
        | some w, some h, some d =>
          if w ≤ 0 ∨ h ≤ 0 ∨ d ≤ 0 then none else some (w, h, d)
        | _, _, _ => none

/-- The `1e-6` clamp applied to each zero natural dimension. -/
def clampEps (q : ℚ) : ℚ := if q = 0 then 1 / 1000000 else q

/-- `initialSize` as computed in `handleFileSelect`: the natural box size,
with an empty box replaced by `(1e-6, 1e-6, 1e-6)` and each zero component
clamped to `1e-6`. -/
def importInitialSize (nb : Option Box3) : Vec3 :=
  match nb with
  | none => ⟨1 / 1000000, 1 / 1000000, 1 / 1000000⟩
  | some b => ⟨clampEps (b.size.x), clampEps (b.size.y), clampEps (b.size.z)⟩

/-- The object construction of `handleFileSelect` once the requested
dimensions `(w, h, d)` are validated: scale the freshly parsed object so each
axis reaches the requested size (against the clamped natural size), recenter
it horizontally, ground it vertically, and attach the initially hidden,
inactive box helper. -/
def importBuild (nid : ℕ) (nb : Option Box3) (w h d : ℚ) : ObjectData :=
  let obj0 : Object3D := ⟨nid, ⟨0, 0, 0⟩, ⟨1, 1, 1⟩, nb⟩
  let iS := importInitialSize (getObjectAABB obj0)
  let obj1 := { obj0 with scale := (⟨w / iS.x, h / iS.y, d / iS.z⟩ : Vec3) }
  let obj2 :=
    match getObjectAABB obj1 with
    | some b =>
      { obj1 with
        position :=
          (⟨-((b.min.x + b.max.x) / 2), -b.min.y,
            -((b.min.z + b.max.z) / 2)⟩ : Vec3) }
    | none => { obj1 with position := (⟨0, 0, 0⟩ : Vec3) }
  ⟨obj2, iS, false, ⟨BOX_HELPER_COLOR_INACTIVE, false⟩⟩

/-- The post-parse body of `handleFileSelect`: prompt for dimensions, abort
on cancel / non-numeric / non-positive input, otherwise build the scaled,
recentered, grounded object, register it (with its list row and helper) and
select it. -/
def importFromFile (st : EditorState) (nb : Option Box3)
    (wP hP dP : Option (Option ℚ)) : EditorState :=
  match parsePrompts wP hP dP with
  | none => st
  | some (w, h, d) =>
    let dta := importBuild st.nextId nb w h d
    let st1 :=
      { st with
        loadedObjects := st.loadedObjects ++ [dta]
        nextId := st.nextId + 1
        nameCounter := st.nameCounter + 1 }
    selectObject st1 dta.obj.id

/-- `promptAndSetDimensions`: abort on cancel / non-numeric / non-positive
input; otherwise recompute the scale against the stored `initialSize`, keep
the current x and z position, and set the y position to the negated minimum
of the box computed at the old position. -/
def promptAndSetDimensions (st : EditorState) (i : ℕ)
    (wP hP dP : Option (Option ℚ)) : EditorState :=
  match st.loadedObjects.find? (fun d => d.obj.id = i) with
  | none => st
  | some dta =>
    match parsePrompts wP hP dP with
    | none => st
    | some (w, h, d) =>
      let iS := dta.initialSize
      let obj := dta.obj
      let cx := obj.position.x
      let cz := obj.position.z
      let obj1 := { obj with scale := (⟨w / iS.x, h / iS.y, d / iS.z⟩ : Vec3) }
      let obj2 :=
        match getObjectAABB obj1 with
        | some b => { obj1 with position := (⟨cx, -b.min.y, cz⟩ : Vec3) }
        | none => obj1
      { st with
        loadedObjects := st.loadedObjects.map fun (dd : ObjectData) =>
          if dd.obj.id = i then { dd with obj := obj2 } else dd }

/-! ### Specification-side predicates -/

/-- `sel` is an eligible face alignment of the source box `sa` against some
candidate in `S`: the candidate is distinct from the source, has a non-empty
box, `sel` is one of its six checks, and the overlap gate passes. -/
def EligibleFrom (src : Object3D) (S : List Object3D) (sa : Box3)
    (sel : Axis × ℚ) : Prop :=
  ∃ t ∈ S, t.id ≠ src.id ∧
    ∃ tb, getObjectAABB t = some tb ∧ sel ∈ snapChecks sa tb ∧
      snapOverlaps sel.1 sa tb = true

/-- Invariant of the `(bestSnapDelta, minSnapDistSq)` accumulator: either
nothing is selected yet and the bound is still `SNAP_THRESHOLD²`, or the
selected alignment is eligible, strictly within threshold, and the bound is
its squared delta. -/
def AccOK (src : Object3D) (S : List Object3D) (sa : Box3)
    (acc : Option (Axis × ℚ) × ℚ) : Prop :=
  (acc.1 = none ∧ acc.2 = SNAP_THRESHOLD * SNAP_THRESHOLD) ∨
  (∃ sel, acc.1 = some sel ∧ acc.2 = sel.2 * sel.2 ∧
    sel.2 * sel.2 < SNAP_THRESHOLD * SNAP_THRESHOLD ∧
    EligibleFrom src S sa sel)

/-- Projection of an `ObjectData` to its scene-relevant part (object and
captured initial size), ignoring list-row and helper visuals. -/
def objCore (d : ObjectData) : Object3D × Vec3 := (d.obj, d.initialSize)

/-- The selection invariant: registered ids are pairwise distinct; the
selection, when set, is in the registry; exactly the selected row carries the
`selected` class; and, while no drag is in progress, exactly the selected
object's helper is visible (in active color), all others hidden. -/
def SelectionInv (st : EditorState) : Prop :=
  st.loadedObjects.Pairwise (fun d1 d2 => d1.obj.id ≠ d2.obj.id) ∧
  (∀ i, st.selected = some i → ∃ dd ∈ st.loadedObjects, dd.obj.id = i) ∧
  (∀ dd ∈ st.loadedObjects,
    (dd.selectedClass = true ↔ st.selected = some dd.obj.id)) ∧
  (st.isDragging = false →
    ∀ dd ∈ st.loadedObjects,
      (st.selected = some dd.obj.id →
        dd.helper.visible = true ∧
        dd.helper.color = BOX_HELPER_COLOR_ACTIVE) ∧
      (st.selected ≠ some dd.obj.id → dd.helper.visible = false))

/-! ### Concrete scenario helpers for witnesses -/

/-- A cancelled, non-numeric or non-positive dimension entry, the abort
conditions of the import and edit flows. -/
def InvalidPrompts (wP hP dP : Option (Option ℚ)) : Prop :=
  wP = none ∨ hP = none ∨ dP = none ∨
  wP = some none ∨ hP = some none ∨ dP = some none ∨
  (∃ w, wP = some (some w) ∧ w ≤ 0) ∨
  (∃ h, hP = some (some h) ∧ h ≤ 0) ∨
  (∃ d, dP = some (some d) ∧ d ≤ 0)

/-- A unit cube with natural box `[0,1]³`, at the given position. -/
def unitCube (n : ℕ) (p : Vec3) : Object3D :=
  ⟨n, p, ⟨1, 1, 1⟩, some ⟨⟨0, 0, 0⟩, ⟨1, 1, 1⟩⟩⟩

/-- The editor state at startup: no objects, nothing selected. -/
def emptyEditor : EditorState :=
  ⟨[], none, false, true, .translate, none, 0, 0⟩

/-! ### Geometry lemmas -/

theorem getObjectAABB_addPos (o : Object3D) (v : Vec3) :
    getObjectAABB { o with position := o.position + v } =
      (getObjectAABB o).map (fun b => b.translate v) := by
  cases h : o.naturalBox <;>
    simp [getObjectAABB, Box3.translate, Vec3.add_def, h, add_assoc]

theorem snapOverlaps_shift (a : Axis) (sa tb : Box3) (d : ℚ) :
    snapOverlaps a (sa.translate (axisVec a d)) tb = snapOverlaps a sa tb := by
  cases a <;> simp [snapOverlaps, Box3.translate, axisVec, Vec3.add_def]

theorem thresholdSq_pos : 0 < SNAP_THRESHOLD * SNAP_THRESHOLD := by
  norm_num [SNAP_THRESHOLD]

/-! ### Snap accumulator lemmas -/

theorem AccOK.snd_le_thresh {src : Object3D} {S : List Object3D} {sa : Box3}
    {acc : Option (Axis × ℚ) × ℚ} (h : AccOK src S sa acc) :
    acc.2 ≤ SNAP_THRESHOLD * SNAP_THRESHOLD := by
  rcases h with ⟨-, h2⟩ | ⟨sel, -, h2, hlt, -⟩
  · exact le_of_eq h2
  · exact h2 ▸ le_of_lt hlt

theorem AccOK.snd_nonneg {src : Object3D} {S : List Object3D} {sa : Box3}
    {acc : Option (Axis × ℚ) × ℚ} (h : AccOK src S sa acc) : 0 ≤ acc.2 := by
  rcases h with ⟨-, h2⟩ | ⟨sel, -, h2, -, -⟩
  · rw [h2]; exact le_of_lt thresholdSq_pos
  · rw [h2]; exact mul_self_nonneg _

theorem snapStep_accOK {src : Object3D} {S : List Object3D} {sa tb : Box3}
    {t : Object3D} (ht : t ∈ S) (hid : t.id ≠ src.id)
    (htb : getObjectAABB t = some tb) {c : Axis × ℚ}
    (hc : c ∈ snapChecks sa tb) {acc : Option (Axis × ℚ) × ℚ}
    (hacc : AccOK src S sa acc) : AccOK src S sa (snapStep sa tb acc c) := by
  unfold snapStep
  split
  · next hcond =>
    right
    exact ⟨c, rfl, rfl, lt_of_lt_of_le hcond.1 hacc.snd_le_thresh,
      t, ht, hid, tb, htb, hc, hcond.2⟩
  · exact hacc

theorem foldl_snapStep_accOK {src : Object3D} {S : List Object3D}
    {sa tb : Box3} {t : Object3D} (ht : t ∈ S) (hid : t.id ≠ src.id)
    (htb : getObjectAABB t = some tb) (cs : List (Axis × ℚ))
    (hcs : ∀ c ∈ cs, c ∈ snapChecks sa tb) :
    ∀ acc, AccOK src S sa acc →
      AccOK src S sa (cs.foldl (snapStep sa tb) acc) := by
  induction cs with
  | nil => intro acc hacc; exact hacc
  | cons c cs ih =>
    intro acc hacc
    exact ih (fun c' hc' => hcs c' (List.mem_cons_of_mem _ hc')) _
      (snapStep_accOK ht hid htb (hcs c (List.mem_cons_self c cs)) hacc)

theorem snapFoldTarget_accOK {src : Object3D} {S : List Object3D} {sa : Box3}
    {t : Object3D} (ht : t ∈ S) {acc : Option (Axis × ℚ) × ℚ}
    (hacc : AccOK src S sa acc) :
    AccOK src S sa (snapFoldTarget src sa acc t) := by
  unfold snapFoldTarget
  split
  · exact hacc
  · next hid =>
    cases htb : getObjectAABB t with
    | none => exact hacc
    | some tb =>
      exact foldl_snapStep_accOK ht hid htb _ (fun c hc => hc) acc hacc

theorem foldl_targets_accOK {src : Object3D} {S : List Object3D} {sa : Box3}
    (l : List Object3D) (hl : ∀ t ∈ l, t ∈ S) :
    ∀ acc, AccOK src S sa acc →
      AccOK src S sa (l.foldl (snapFoldTarget src sa) acc) := by
  induction l with
  | nil => intro acc hacc; exact hacc
  | cons t l ih =>
    intro acc hacc
    exact ih (fun t' ht' => hl t' (List.mem_cons_of_mem _ ht')) _
      (snapFoldTarget_accOK (hl t (List.mem_cons_self t l)) hacc)

theorem snapObjectScan_accOK (src : Object3D) (sa : Box3)
    (others : List Object3D) :
    AccOK src others sa (snapObjectScan src sa others) :=
  foldl_targets_accOK others (fun _ h => h) _ (Or.inl ⟨rfl, rfl⟩)

/-! ### Snap minimality lemmas -/

theorem snapStep_snd_le (sa tb : Box3) (acc : Option (Axis × ℚ) × ℚ)
    (c : Axis × ℚ) : (snapStep sa tb acc c).2 ≤ acc.2 := by
  unfold snapStep
  split
  · next hcond => exact le_of_lt hcond.1
  · exact le_rfl

theorem snapStep_snd_le_of_ovl {sa tb : Box3} {c : Axis × ℚ}
    (hovl : snapOverlaps c.1 sa tb = true) (acc : Option (Axis × ℚ) × ℚ) :
    (snapStep sa tb acc c).2 ≤ c.2 * c.2 := by
  unfold snapStep
  split
  · exact le_rfl
  · next hcond =>
    push_neg at hcond
    exact le_of_not_lt fun hlt => absurd hovl (by simpa using hcond hlt)

theorem foldl_snapStep_snd_le (sa tb : Box3) (cs : List (Axis × ℚ)) :
    ∀ acc, (cs.foldl (snapStep sa tb) acc).2 ≤ acc.2 := by
  induction cs with
  | nil => intro acc; exact le_rfl
  | cons c cs ih =>
    intro acc; exact le_trans (ih _) (snapStep_snd_le sa tb acc c)

theorem foldl_snapStep_snd_le_mem {sa tb : Box3} {c : Axis × ℚ}
    {cs : List (Axis × ℚ)} (hc : c ∈ cs)
    (hovl : snapOverlaps c.1 sa tb = true) :
    ∀ acc, (cs.foldl (snapStep sa tb) acc).2 ≤ c.2 * c.2 := by
  induction cs with
  | nil => cases hc
  | cons b cs ih =>
    intro acc
    rcases List.mem_cons.mp hc with h | h
    · subst h
      exact le_trans (foldl_snapStep_snd_le sa tb cs _)
        (snapStep_snd_le_of_ovl hovl acc)
    · exact ih h _

theorem snapFoldTarget_snd_le (src : Object3D) (sa : Box3)
    (acc : Option (Axis × ℚ) × ℚ) (t : Object3D) :
    (snapFoldTarget src sa acc t).2 ≤ acc.2 := by
  unfold snapFoldTarget
  split
  · exact le_rfl
  · cases htb : getObjectAABB t with
    | none => exact le_rfl
    | some tb => exact foldl_snapStep_snd_le sa tb _ acc

theorem foldl_targets_snd_le (src : Object3D) (sa : Box3)
    (l : List Object3D) :
    ∀ acc, (l.foldl (snapFoldTarget src sa) acc).2 ≤ acc.2 := by
  induction l with
  | nil => intro acc; exact le_rfl
  | cons t l ih =>
    intro acc; exact le_trans (ih _) (snapFoldTarget_snd_le src sa acc t)

theorem foldl_targets_snd_le_elig {src : Object3D} {sa tb : Box3}
    {t : Object3D} {c : Axis × ℚ} {l : List Object3D} (hl : t ∈ l)
    (hid : t.id ≠ src.id) (htb : getObjectAABB t = some tb)
    (hc : c ∈ snapChecks sa tb) (hovl : snapOverlaps c.1 sa tb = true) :
    ∀ acc, (l.foldl (snapFoldTarget src sa) acc).2 ≤ c.2 * c.2 := by
  induction l with
  | nil => cases hl
  | cons b l ih =>
    intro acc
    rcases List.mem_cons.mp hl with h | h
    · subst h
      refine le_trans (foldl_targets_snd_le src sa l _) ?_
      unfold snapFoldTarget
      rw [if_neg hid, htb]
      exact foldl_snapStep_snd_le_mem hc hovl acc
    · exact ih h _

/-! ### No-op lemmas for ineligible scans -/

theorem foldl_snapStep_id {sa tb : Box3} (cs : List (Axis × ℚ))
    (hno : ∀ c ∈ cs, snapOverlaps c.1 sa tb = false) :
    ∀ acc, cs.foldl (snapStep sa tb) acc = acc := by
  induction cs with
  | nil => intro acc; rfl
  | cons c cs ih =>
    intro acc
    have hstep : snapStep sa tb acc c = acc := by
      unfold snapStep
      rw [if_neg]
      rintro ⟨-, h2⟩
      rw [hno c (List.mem_cons_self c cs)] at h2
      cases h2
    rw [List.foldl_cons, hstep]
    exact ih (fun c' hc' => hno c' (List.mem_cons_of_mem _ hc')) acc

theorem snapFoldTarget_noop {src : Object3D} {sa tb : Box3} {B : Object3D}
    (htb : getObjectAABB B = some tb)
    (hno : ∀ a : Axis, snapOverlaps a sa tb = false)
    (acc : Option (Axis × ℚ) × ℚ) : snapFoldTarget src sa acc B = acc := by
  unfold snapFoldTarget
  split
  · rfl
  · rw [htb]
    exact foldl_snapStep_id _ (fun c _ => hno c.1) acc

theorem foldl_snapStep_thresh {sa tb : Box3} (cs : List (Axis × ℚ))
    (h : ∀ c ∈ cs,
      ¬(c.2 * c.2 < SNAP_THRESHOLD * SNAP_THRESHOLD ∧
        snapOverlaps c.1 sa tb = true)) :
    cs.foldl (snapStep sa tb) (none, SNAP_THRESHOLD * SNAP_THRESHOLD) =
      (none, SNAP_THRESHOLD * SNAP_THRESHOLD) := by
  induction cs with
  | nil => rfl
  | cons c cs ih =>
    have hstep :
        snapStep sa tb (none, SNAP_THRESHOLD * SNAP_THRESHOLD) c =
          (none, SNAP_THRESHOLD * SNAP_THRESHOLD) := by
      unfold snapStep
      exact if_neg (h c (List.mem_cons_self c cs))
    rw [List.foldl_cons, hstep]
    exact ih (fun c' hc' => h c' (List.mem_cons_of_mem _ hc'))

theorem foldl_targets_thresh {src : Object3D} {sa : Box3}
    (l : List Object3D)
    (h : ∀ t ∈ l, t.id ≠ src.id → ∀ tb, getObjectAABB t = some tb →
      ∀ c ∈ snapChecks sa tb,
        ¬(c.2 * c.2 < SNAP_THRESHOLD * SNAP_THRESHOLD ∧
          snapOverlaps c.1 sa tb = true)) :
    l.foldl (snapFoldTarget src sa) (none, SNAP_THRESHOLD * SNAP_THRESHOLD) =
      (none, SNAP_THRESHOLD * SNAP_THRESHOLD) := by
  induction l with
  | nil => rfl
  | cons t l ih =>
    have hstep :
        snapFoldTarget src sa (none, SNAP_THRESHOLD * SNAP_THRESHOLD) t =
          (none, SNAP_THRESHOLD * SNAP_THRESHOLD) := by
      unfold snapFoldTarget
      split
      · rfl
      · next hid =>
        cases htb : getObjectAABB t with
        | none => rfl
        | some tb =>
          exact foldl_snapStep_thresh _
            (h t (List.mem_cons_self t l) hid tb htb)
    rw [List.foldl_cons, hstep]
    exact ih (fun t' ht' => h t' (List.mem_cons_of_mem _ ht'))

/-- After a selected alignment `(ax, d)` of the source box `sa` against a
target box `tb` is applied, the corresponding check of the shifted source box
has delta zero. -/
theorem zero_check_mem (sa tb : Box3) (ax : Axis) (d : ℚ)
    (hmem : (ax, d) ∈ snapChecks sa tb) :
    (ax, (0 : ℚ)) ∈ snapChecks (sa.translate (axisVec ax d)) tb := by
  simp only [snapChecks, List.mem_cons, List.not_mem_nil, or_false,
    Prod.mk.injEq] at hmem ⊢
  rcases hmem with ⟨rfl, rfl⟩ | ⟨rfl, rfl⟩ | ⟨rfl, rfl⟩ | ⟨rfl, rfl⟩ |
    ⟨rfl, rfl⟩ | ⟨rfl, rfl⟩
  · exact Or.inl ⟨rfl, by simp [Box3.translate, axisVec, Vec3.add_def]; try ring⟩
  · exact Or.inr (Or.inl ⟨rfl,
      by simp [Box3.translate, axisVec, Vec3.add_def]; try ring⟩)
  · exact Or.inr (Or.inr (Or.inl ⟨rfl,
      by simp [Box3.translate, axisVec, Vec3.add_def]; try ring⟩))
  · exact Or.inr (Or.inr (Or.inr (Or.inl ⟨rfl,
      by simp [Box3.translate, axisVec, Vec3.add_def]; try ring⟩)))
  · exact Or.inr (Or.inr (Or.inr (Or.inr (Or.inl ⟨rfl,
      by simp [Box3.translate, axisVec, Vec3.add_def]; try ring⟩))))
  · exact Or.inr (Or.inr (Or.inr (Or.inr (Or.inr ⟨rfl,
      by simp [Box3.translate, axisVec, Vec3.add_def]; try ring⟩))))

/-! ### Claim theorems: snap engine -/

/-- C1: when a face alignment `(ax, d)` of the moving object against a
registered candidate — within threshold and passing the two-axis overlap
gate — is the one `applySnapAdjustment` selects, the object is translated by
exactly `d` on that single axis (the other two position components are
untouched, as are scale and geometry), and afterwards the touching faces
coincide exactly: the moved box's near face equals the candidate's face on
the alignment axis. -/
theorem snap_aligns_touching_faces
    (src B : Object3D) (others : List Object3D) (sa tb : Box3)
    (ax : Axis) (d : ℚ)
    (hsa : getObjectAABB src = some sa)
    (hB : B ∈ others)
    (htb : getObjectAABB B = some tb)
    (hmem : (ax, d) ∈ snapChecks sa tb)
    (hovl : snapOverlaps ax sa tb = true)
    (hthr : d * d < SNAP_THRESHOLD * SNAP_THRESHOLD)
    (hbest : snapDecision src others = some (ax, d)) :
    (applySnapAdjustment src others).position =
        src.position.set ax (src.position.get ax + d) ∧
    (applySnapAdjustment src others).scale = src.scale ∧
    (applySnapAdjustment src others).naturalBox = src.naturalBox ∧
    getObjectAABB (applySnapAdjustment src others) =
        some (sa.translate (axisVec ax d)) ∧
    ((sa.translate (axisVec ax d)).max.get ax = tb.min.get ax ∨
     (sa.translate (axisVec ax d)).min.get ax = tb.max.get ax) := by
  have happ : applySnapAdjustment src others =
      { src with position := src.position + axisVec ax d } := by
    simp [applySnapAdjustment, hbest]
  refine ⟨?_, ?_, ?_, ?_, ?_⟩
  · rw [happ]
    cases ax <;> simp [Vec3.set, Vec3.get, axisVec, Vec3.add_def]
  · rw [happ]
  · rw [happ]
  · rw [happ, getObjectAABB_addPos, hsa]
    rfl
  · simp only [snapChecks, List.mem_cons, List.not_mem_nil, or_false,
      Prod.mk.injEq] at hmem
    rcases hmem with ⟨rfl, rfl⟩ | ⟨rfl, rfl⟩ | ⟨rfl, rfl⟩ | ⟨rfl, rfl⟩ |
      ⟨rfl, rfl⟩ | ⟨rfl, rfl⟩ <;>
      [skip; right; skip; right; skip; right] <;>
      [left; skip; left; skip; left; skip] <;>
      simp [Box3.translate, axisVec, Vec3.add_def, Vec3.get] <;> try ring

/-- C1 witness: a unit cube hovering at `x = 1.1, y = 0.3` next to a unit
cube at the origin snaps left by `0.1`, making the faces at `x = 1`
coincide. -/
theorem snap_aligns_touching_faces_witness :
    (applySnapAdjustment (unitCube 0 ⟨11/10, 3/10, 0⟩)
        [unitCube 1 ⟨0, 0, 0⟩]).position =
      Vec3.set ⟨11/10, 3/10, 0⟩ .x (Vec3.get ⟨11/10, 3/10, 0⟩ .x + -(1/10)) ∧
    (applySnapAdjustment (unitCube 0 ⟨11/10, 3/10, 0⟩)
        [unitCube 1 ⟨0, 0, 0⟩]).scale = (unitCube 0 ⟨11/10, 3/10, 0⟩).scale ∧
    (applySnapAdjustment (unitCube 0 ⟨11/10, 3/10, 0⟩)
        [unitCube 1 ⟨0, 0, 0⟩]).naturalBox =
      (unitCube 0 ⟨11/10, 3/10, 0⟩).naturalBox ∧
    getObjectAABB (applySnapAdjustment (unitCube 0 ⟨11/10, 3/10, 0⟩)
        [unitCube 1 ⟨0, 0, 0⟩]) =
      some (Box3.translate ⟨⟨11/10, 3/10, 0⟩, ⟨21/10, 13/10, 1⟩⟩
        (axisVec .x (-(1/10)))) ∧
    ((Box3.translate ⟨⟨11/10, 3/10, 0⟩, ⟨21/10, 13/10, 1⟩⟩
        (axisVec .x (-(1/10)))).max.get .x =
      (⟨⟨0, 0, 0⟩, ⟨1, 1, 1⟩⟩ : Box3).min.get .x ∨
     (Box3.translate ⟨⟨11/10, 3/10, 0⟩, ⟨21/10, 13/10, 1⟩⟩
        (axisVec .x (-(1/10)))).min.get .x =
      (⟨⟨0, 0, 0⟩, ⟨1, 1, 1⟩⟩ : Box3).max.get .x) :=
  snap_aligns_touching_faces
    (unitCube 0 ⟨11/10, 3/10, 0⟩) (unitCube 1 ⟨0, 0, 0⟩)
    [unitCube 1 ⟨0, 0, 0⟩]
    ⟨⟨11/10, 3/10, 0⟩, ⟨21/10, 13/10, 1⟩⟩ ⟨⟨0, 0, 0⟩, ⟨1, 1, 1⟩⟩
    .x (-(1/10))
    (by norm_num [unitCube, getObjectAABB, scaleLo, scaleHi, min_def, max_def])
    (List.mem_cons_self _ _)
    (by norm_num [unitCube, getObjectAABB, scaleLo, scaleHi, min_def, max_def])
    (by norm_num [snapChecks, Prod.mk.injEq])
    (by norm_num [snapOverlaps, decide_eq_true_eq])
    (by norm_num [SNAP_THRESHOLD])
    (by simp only [snapDecision, snapObjectScan, snapFoldTarget, snapChecks,
          snapStep, snapOverlaps, getObjectAABB, scaleLo, scaleHi,
          SNAP_THRESHOLD, unitCube, List.foldl, Option.map]
        norm_num)

/-- C4: when every face alignment of every registered candidate fails the
threshold-and-overlap eligibility test, and the ground plane is at least the
snap threshold away from the moving object's box minimum Y,
`applySnapAdjustment` selects no delta and returns the object completely
unchanged (position, scale and geometry all identical). -/
theorem snap_no_eligible_unchanged
    (src : Object3D) (others : List Object3D) (sa : Box3)
    (hsa : getObjectAABB src = some sa)
    (hobj : ∀ t ∈ others, t.id ≠ src.id → ∀ tb, getObjectAABB t = some tb →
      ∀ c ∈ snapChecks sa tb,
        ¬(c.2 * c.2 < SNAP_THRESHOLD * SNAP_THRESHOLD ∧
          snapOverlaps c.1 sa tb = true))
    (hgd : SNAP_THRESHOLD ≤ |sa.min.y|) :
    applySnapAdjustment src others = src := by
  have hscan : snapObjectScan src sa others =
      (none, SNAP_THRESHOLD * SNAP_THRESHOLD) :=
    foldl_targets_thresh others hobj
  have hdec : snapDecision src others = none := by
    simp only [snapDecision, hsa, hscan]
    rw [if_neg]
    rintro ⟨-, h2⟩
    exact absurd h2 (not_lt.mpr hgd)
  simp [applySnapAdjustment, hdec]

/-- C4 witness: a lone unit cube hovering one unit above the ground is left
untouched. -/
theorem snap_no_eligible_unchanged_witness :
    applySnapAdjustment (unitCube 0 ⟨0, 1, 0⟩) [] = unitCube 0 ⟨0, 1, 0⟩ :=
  snap_no_eligible_unchanged (unitCube 0 ⟨0, 1, 0⟩) []
    ⟨⟨0, 1, 0⟩, ⟨1, 2, 1⟩⟩
    (by norm_num [unitCube, getObjectAABB, scaleLo, scaleHi, min_def, max_def])
    (by intro t ht; exact absurd ht (List.not_mem_nil t))
    (by rw [le_abs]; left; norm_num [SNAP_THRESHOLD])

/-- C5: when the moving object's box minimum Y is within the snap threshold
of the ground plane and strictly closer (in squared distance) than every
eligible object-to-object alignment, `applySnapAdjustment` translates the
object by exactly `-min.y` on Y alone, making its box minimum Y exactly 0. -/
theorem ground_snap_exact
    (src : Object3D) (others : List Object3D) (sa : Box3)
    (hsa : getObjectAABB src = some sa)
    (hnear : |sa.min.y| < SNAP_THRESHOLD)
    (hclosest : ∀ sel, EligibleFrom src others sa sel →
      sel.2 * sel.2 < SNAP_THRESHOLD * SNAP_THRESHOLD →
      sa.min.y * sa.min.y < sel.2 * sel.2) :
    (applySnapAdjustment src others).position =
      src.position.set .y (src.position.get .y + -sa.min.y) ∧
    getObjectAABB (applySnapAdjustment src others) =
      some (sa.translate (axisVec .y (-sa.min.y))) ∧
    (sa.translate (axisVec .y (-sa.min.y))).min.get .y = 0 := by
  have hgdsq : sa.min.y * sa.min.y < (snapObjectScan src sa others).2 := by
    rcases snapObjectScan_accOK src sa others with ⟨-, h2⟩ |
      ⟨sel, -, h2, hlt, helig⟩
    · rw [h2]
      have h := mul_self_lt_mul_self (abs_nonneg sa.min.y) hnear
      rwa [abs_mul_abs_self] at h
    · rw [h2]
      exact hclosest sel helig hlt
  have hdec : snapDecision src others = some (.y, -sa.min.y) := by
    simp only [snapDecision, hsa]
    rw [if_pos ⟨hgdsq, hnear⟩]
  have happ : applySnapAdjustment src others =
      { src with position := src.position + axisVec .y (-sa.min.y) } := by
    simp [applySnapAdjustment, hdec]
  refine ⟨?_, ?_, ?_⟩
  · rw [happ]
    simp [Vec3.set, Vec3.get, axisVec, Vec3.add_def]
  · rw [happ, getObjectAABB_addPos, hsa]
    rfl
  · simp [Box3.translate, axisVec, Vec3.add_def, Vec3.get]

/-- C5 witness: a lone unit cube hovering `0.1` above the ground is grounded
exactly. -/
theorem ground_snap_exact_witness :
    (applySnapAdjustment (unitCube 0 ⟨0, 1/10, 0⟩) []).position =
      Vec3.set ⟨0, 1/10, 0⟩ .y (Vec3.get ⟨0, 1/10, 0⟩ .y + -(1/10)) ∧
    getObjectAABB (applySnapAdjustment (unitCube 0 ⟨0, 1/10, 0⟩) []) =
      some (Box3.translate ⟨⟨0, 1/10, 0⟩, ⟨1, 11/10, 1⟩⟩
        (axisVec .y (-(1/10)))) ∧
    (Box3.translate ⟨⟨0, 1/10, 0⟩, ⟨1, 11/10, 1⟩⟩
        (axisVec .y (-(1/10)))).min.get .y = 0 :=
  ground_snap_exact (unitCube 0 ⟨0, 1/10, 0⟩) []
    ⟨⟨0, 1/10, 0⟩, ⟨1, 11/10, 1⟩⟩
    (by norm_num [unitCube, getObjectAABB, scaleLo, scaleHi, min_def, max_def])
    (by rw [abs_lt]; constructor <;> norm_num [SNAP_THRESHOLD])
    (by rintro sel ⟨t, ht, -⟩; exact absurd ht (List.not_mem_nil t))

/-- C7: a candidate whose box fails the strict overlap gate against the
moving object's box on every axis contributes nothing: `applySnapAdjustment`
behaves exactly as if that candidate were absent from the list, however
small its one-axis distance is. -/
theorem snap_ignores_nonoverlapping_candidate
    (src B : Object3D) (l1 l2 : List Object3D) (sa tb : Box3)
    (hsa : getObjectAABB src = some sa)
    (htb : getObjectAABB B = some tb)
    (hno : ∀ a : Axis, snapOverlaps a sa tb = false) :
    applySnapAdjustment src (l1 ++ B :: l2) =
      applySnapAdjustment src (l1 ++ l2) := by
  have hscan : snapObjectScan src sa (l1 ++ B :: l2) =
      snapObjectScan src sa (l1 ++ l2) := by
    unfold snapObjectScan
    rw [List.foldl_append, List.foldl_append, List.foldl_cons,
      snapFoldTarget_noop htb hno]
  have hdec : snapDecision src (l1 ++ B :: l2) =
      snapDecision src (l1 ++ l2) := by
    simp only [snapDecision, hsa, hscan]
  unfold applySnapAdjustment
  rw [hdec]

/-- C7 witness: a candidate two units above and behind the source (within no
threshold anyway, and overlapping on no axis pair) is ignored — the result
equals the run with no candidates at all. -/
theorem snap_ignores_nonoverlapping_candidate_witness :
    applySnapAdjustment (unitCube 0 ⟨0, 0, 0⟩) [unitCube 1 ⟨0, 2, 2⟩] =
      applySnapAdjustment (unitCube 0 ⟨0, 0, 0⟩) [] :=
  snap_ignores_nonoverlapping_candidate (unitCube 0 ⟨0, 0, 0⟩)
    (unitCube 1 ⟨0, 2, 2⟩) [] []
    ⟨⟨0, 0, 0⟩, ⟨1, 1, 1⟩⟩ ⟨⟨0, 2, 2⟩, ⟨1, 3, 3⟩⟩
    (by norm_num [unitCube, getObjectAABB, scaleLo, scaleHi, min_def, max_def])
    (by norm_num [unitCube, getObjectAABB, scaleLo, scaleHi, min_def, max_def])
    (by intro a
        cases a <;> norm_num [snapOverlaps, decide_eq_false_iff_not])

/-- C10: the overlap gate is strict — if the two boxes merely touch (share a
face) on one of the two gating axes of an alignment, the gate reports no
overlap and the corresponding check never updates the accumulator, even for
a zero delta on the alignment axis. -/
theorem touching_boxes_not_overlapping
    (sa tb : Box3) (a g : Axis) (hag : a ≠ g)
    (htouch : sa.max.get g = tb.min.get g ∨ sa.min.get g = tb.max.get g) :
    snapOverlaps a sa tb = false ∧
    ∀ acc d, snapStep sa tb acc (a, d) = acc := by
  have hov : snapOverlaps a sa tb = false := by
    rcases htouch with ht | ht <;> cases a <;> cases g <;>
      simp only [Vec3.get] at ht <;>
      first
      | exact absurd rfl hag
      | (simp only [snapOverlaps, decide_eq_false_iff_not]
         rintro ⟨h1, h2, h3, h4⟩
         linarith)
  refine ⟨hov, fun acc d => ?_⟩
  unfold snapStep
  rw [if_neg]
  rintro ⟨-, h2⟩
  rw [hov] at h2
  cases h2

/-- C10 witness: a unit cube resting exactly flush on top of another touches
on Y, so the X-axis overlap gate fails and a zero-delta X check leaves the
accumulator untouched. -/
theorem touching_boxes_not_overlapping_witness :
    snapOverlaps .x ⟨⟨0, 0, 0⟩, ⟨1, 1, 1⟩⟩ ⟨⟨0, 1, 0⟩, ⟨1, 2, 1⟩⟩ = false ∧
    snapStep ⟨⟨0, 0, 0⟩, ⟨1, 1, 1⟩⟩ ⟨⟨0, 1, 0⟩, ⟨1, 2, 1⟩⟩
      (none, SNAP_THRESHOLD * SNAP_THRESHOLD) (.x, 0) =
      (none, SNAP_THRESHOLD * SNAP_THRESHOLD) :=
  ⟨(touching_boxes_not_overlapping ⟨⟨0, 0, 0⟩, ⟨1, 1, 1⟩⟩
      ⟨⟨0, 1, 0⟩, ⟨1, 2, 1⟩⟩ .x .y (by simp) (Or.inl rfl)).1,
   (touching_boxes_not_overlapping ⟨⟨0, 0, 0⟩, ⟨1, 1, 1⟩⟩
      ⟨⟨0, 1, 0⟩, ⟨1, 2, 1⟩⟩ .x .y (by simp) (Or.inl rfl)).2
     (none, SNAP_THRESHOLD * SNAP_THRESHOLD) 0⟩

theorem threshold_pos : 0 < SNAP_THRESHOLD := by norm_num [SNAP_THRESHOLD]

/-- C6: `applySnapAdjustment` is idempotent — running it a second time with
no intervening move leaves the position unchanged, because after a snap the
chosen alignment (or the ground) is at distance exactly zero, so the second
invocation selects a zero delta (or nothing). -/
theorem snap_idempotent (src : Object3D) (others : List Object3D) :
    (applySnapAdjustment (applySnapAdjustment src others) others).position =
      (applySnapAdjustment src others).position := by
  cases hdec : snapDecision src others with
  | none =>
    have hA : applySnapAdjustment src others = src := by
      simp [applySnapAdjustment, hdec]
    rw [hA, hA]
  | some c =>
    obtain ⟨ax, d⟩ := c
    cases hsa : getObjectAABB src with
    | none =>
      simp only [snapDecision, hsa] at hdec
      exact Option.noConfusion hdec
    | some sa =>
      have happ : applySnapAdjustment src others =
          { src with position := src.position + axisVec ax d } := by
        simp [applySnapAdjustment, hdec]
      have hsa' : getObjectAABB (applySnapAdjustment src others) =
          some (sa.translate (axisVec ax d)) := by
        rw [happ, getObjectAABB_addPos, hsa]; rfl
      have hid' : (applySnapAdjustment src others).id = src.id := by
        rw [happ]
      have hzero : ∃ ax2,
          snapDecision (applySnapAdjustment src others) others =
            some (ax2, 0) := by
        simp only [snapDecision, hsa] at hdec
        split_ifs at hdec with hg
        · -- the first call snapped to the ground: the new box minimum Y is 0
          simp only [Option.some.injEq, Prod.mk.injEq] at hdec
          obtain ⟨hax, hd⟩ := hdec
          subst hax
          subst hd
          have hgd' :
              (sa.translate (axisVec .y (-sa.min.y))).min.y = 0 := by
            simp [Box3.translate, axisVec, Vec3.add_def]
          rcases snapObjectScan_accOK (applySnapAdjustment src others)
              (sa.translate (axisVec .y (-sa.min.y))) others with
            ⟨-, h2'⟩ | ⟨⟨sax', sd'⟩, h1', h2', -, -⟩
          · refine ⟨.y, ?_⟩
            have hcond : (sa.translate (axisVec .y (-sa.min.y))).min.y *
                  (sa.translate (axisVec .y (-sa.min.y))).min.y <
                  (snapObjectScan (applySnapAdjustment src others)
                    (sa.translate (axisVec .y (-sa.min.y))) others).2 ∧
                |(sa.translate (axisVec .y (-sa.min.y))).min.y| <
                  SNAP_THRESHOLD := by
              constructor
              · rw [hgd', h2']
                simpa using thresholdSq_pos
              · rw [hgd', abs_zero]
                exact threshold_pos
            simp only [snapDecision, hsa']
            rw [if_pos hcond, hgd', neg_zero]
          · by_cases h0 : sd' = 0
            · refine ⟨sax', ?_⟩
              have hnc : ¬((sa.translate (axisVec .y (-sa.min.y))).min.y *
                    (sa.translate (axisVec .y (-sa.min.y))).min.y <
                    (snapObjectScan (applySnapAdjustment src others)
                      (sa.translate (axisVec .y (-sa.min.y))) others).2 ∧
                  |(sa.translate (axisVec .y (-sa.min.y))).min.y| <
                    SNAP_THRESHOLD) := by
                rintro ⟨hlt', -⟩
                rw [hgd', h2', h0] at hlt'
                simp at hlt'
              simp only [snapDecision, hsa']
              rw [if_neg hnc, h1', h0]
            · refine ⟨.y, ?_⟩
              have hcond : (sa.translate (axisVec .y (-sa.min.y))).min.y *
                    (sa.translate (axisVec .y (-sa.min.y))).min.y <
                    (snapObjectScan (applySnapAdjustment src others)
                      (sa.translate (axisVec .y (-sa.min.y))) others).2 ∧
                  |(sa.translate (axisVec .y (-sa.min.y))).min.y| <
                    SNAP_THRESHOLD := by
                constructor
                · rw [hgd', h2']
                  simpa using mul_self_pos.mpr h0
                · rw [hgd', abs_zero]
                  exact threshold_pos
              simp only [snapDecision, hsa']
              rw [if_pos hcond, hgd', neg_zero]
        · -- the first call snapped to an object alignment: its delta is 0 now
          rcases snapObjectScan_accOK src sa others with
            ⟨h1, -⟩ | ⟨sel, h1, -, -, helig⟩
          · rw [h1] at hdec
            cases hdec
          · rw [h1] at hdec
            have hsel : sel = (ax, d) := Option.some.inj hdec
            subst hsel
            obtain ⟨t, ht, hid, tb, htb, hmem, hovl⟩ := helig
            have hc0 : (ax, (0 : ℚ)) ∈
                snapChecks (sa.translate (axisVec ax d)) tb :=
              zero_check_mem sa tb ax d hmem
            have hovl' :
                snapOverlaps ax (sa.translate (axisVec ax d)) tb = true := by
              rw [snapOverlaps_shift]; exact hovl
            have hid2 : t.id ≠ (applySnapAdjustment src others).id := by
              rw [hid']; exact hid
            have hle : (snapObjectScan (applySnapAdjustment src others)
                (sa.translate (axisVec ax d)) others).2 ≤ 0 := by
              have h := foldl_targets_snd_le_elig
                (c := ((ax, (0 : ℚ)) : Axis × ℚ)) ht hid2 htb hc0 hovl'
                (none, SNAP_THRESHOLD * SNAP_THRESHOLD)
              simpa [snapObjectScan] using h
            have heq0 : (snapObjectScan (applySnapAdjustment src others)
                (sa.translate (axisVec ax d)) others).2 = 0 :=
              le_antisymm hle
                (snapObjectScan_accOK _ _ _).snd_nonneg
            rcases snapObjectScan_accOK (applySnapAdjustment src others)
                (sa.translate (axisVec ax d)) others with
              ⟨-, h2'⟩ | ⟨⟨sax', sd'⟩, h1', h2', -, -⟩
            · rw [h2'] at heq0
              exact absurd heq0 (ne_of_gt thresholdSq_pos)
            · have heq0' := heq0
              rw [h2'] at heq0'
              have hsd' : sd' = 0 := by
                have h := heq0'
                simp only at h
                exact mul_self_eq_zero.mp h
              refine ⟨sax', ?_⟩
              have hnc : ¬((sa.translate (axisVec ax d)).min.y *
                    (sa.translate (axisVec ax d)).min.y <
                    (snapObjectScan (applySnapAdjustment src others)
                      (sa.translate (axisVec ax d)) others).2 ∧
                  |(sa.translate (axisVec ax d)).min.y| <
                    SNAP_THRESHOLD) := by
                rintro ⟨hlt', -⟩
                rw [heq0] at hlt'
                exact absurd hlt' (not_lt.mpr (mul_self_nonneg _))
              simp only [snapDecision, hsa']
              rw [if_neg hnc, h1', hsd']
      obtain ⟨ax2, hdec2⟩ := hzero
      set A := applySnapAdjustment src others with hA
      have happ2 : applySnapAdjustment A others =
          { A with position := A.position + axisVec ax2 0 } := by
        simp [applySnapAdjustment, hdec2]
      rw [happ2]
      cases ax2 <;> simp [axisVec, Vec3.add_def]

/-! ### Selection state machine lemmas -/

theorem updateBoxHelperState_true (d : ObjectData) (g : Bool) :
    updateBoxHelperState d true g =
      { d with helper := ⟨BOX_HELPER_COLOR_ACTIVE, true⟩ } := rfl

theorem updateBoxHelperState_false (d : ObjectData) (g : Bool) :
    updateBoxHelperState d false g =
      { d with helper := ⟨BOX_HELPER_COLOR_INACTIVE, g⟩ } := rfl

theorem map_objCore_eq {l : List ObjectData} {g : ObjectData → ObjectData}
    (hg : ∀ d, objCore (g d) = objCore d) :
    (l.map g).map objCore = l.map objCore := by
  rw [List.map_map]
  exact congrArg (fun f => l.map f) (funext fun d => hg d)

theorem pairwise_ids_map {l : List ObjectData} {g : ObjectData → ObjectData}
    (hg : ∀ d, (g d).obj.id = d.obj.id)
    (h : l.Pairwise fun d1 d2 => d1.obj.id ≠ d2.obj.id) :
    (l.map g).Pairwise fun d1 d2 => d1.obj.id ≠ d2.obj.id := by
  rw [List.pairwise_map]
  exact h.imp fun hab => by simpa [hg] using hab

theorem exists_id_of_objCore_eq {l1 l2 : List ObjectData}
    (h : l1.map objCore = l2.map objCore) {i : ℕ}
    (hex : ∃ d ∈ l2, d.obj.id = i) : ∃ d ∈ l1, d.obj.id = i := by
  rcases hex with ⟨d, hd, hid⟩
  have hm : objCore d ∈ l1.map objCore := by
    rw [h]; exact List.mem_map_of_mem _ hd
  rcases List.mem_map.mp hm with ⟨d1, hd1, he⟩
  refine ⟨d1, hd1, ?_⟩
  have hobj : d1.obj = d.obj := congrArg Prod.fst he
  rw [hobj]; exact hid

theorem inv_of_cleared {st : EditorState}
    (hpw : st.loadedObjects.Pairwise fun d1 d2 => d1.obj.id ≠ d2.obj.id)
    (hsel : st.selected = none)
    (hcl : ∀ dd ∈ st.loadedObjects,
      dd.selectedClass = false ∧ dd.helper.visible = false) :
    SelectionInv st := by
  refine ⟨hpw, ?_, ?_, ?_⟩
  · intro i hi; rw [hsel] at hi; cases hi
  · intro dd hdd
    simp [hsel, (hcl dd hdd).1]
  · intro _ dd hdd
    constructor
    · intro hi; rw [hsel] at hi; cases hi
    · intro _; exact (hcl dd hdd).2

theorem deselectObject_eq_nf (st : EditorState) (hs : st.selected = none)
    (hd : st.isDragging = false) : deselectObject st = st := by
  simp [deselectObject, hs, hd]

theorem deselectObject_eq_nt (st : EditorState) (hs : st.selected = none)
    (hd : st.isDragging = true) :
    deselectObject st =
      { st with
        isDragging := false
        orbitEnabled := true
        loadedObjects := st.loadedObjects.map fun d =>
          updateBoxHelperState d false false } := by
  simp [deselectObject, hs, hd]

theorem deselectObject_eq_sf (st : EditorState) (j : ℕ)
    (hs : st.selected = some j) (hd : st.isDragging = false) :
    deselectObject st =
      { st with
        selected := none
        attached := none
        loadedObjects := st.loadedObjects.map fun d =>
          if d.obj.id = j then
            updateBoxHelperState { d with selectedClass := false } false false
          else d } := by
  simp [deselectObject, hs, hd]

theorem deselectObject_eq_st (st : EditorState) (j : ℕ)
    (hs : st.selected = some j) (hd : st.isDragging = true) :
    deselectObject st =
      { loadedObjects :=
          (st.loadedObjects.map fun d =>
            if d.obj.id = j then
              updateBoxHelperState { d with selectedClass := false }
                false false
            else d).map fun d => updateBoxHelperState d false false
        selected := none
        isDragging := false
        orbitEnabled := true
        mode := st.mode
        attached := none
        nextId := st.nextId
        nameCounter := st.nameCounter } := by
  simp [deselectObject, hs, hd]

theorem deselectObject_selected (st : EditorState) :
    (deselectObject st).selected = none := by
  cases hs : st.selected with
  | none =>
    cases hd : st.isDragging
    · rw [deselectObject_eq_nf st hs hd]; exact hs
    · rw [deselectObject_eq_nt st hs hd]; exact hs
  | some j =>
    cases hd : st.isDragging
    · rw [deselectObject_eq_sf st j hs hd]
    · rw [deselectObject_eq_st st j hs hd]

theorem deselectObject_isDragging (st : EditorState) :
    (deselectObject st).isDragging = false := by
  cases hs : st.selected with
  | none =>
    cases hd : st.isDragging
    · rw [deselectObject_eq_nf st hs hd]; exact hd
    · rw [deselectObject_eq_nt st hs hd]
  | some j =>
    cases hd : st.isDragging
    · rw [deselectObject_eq_sf st j hs hd]; exact hd
    · rw [deselectObject_eq_st st j hs hd]

theorem deselectObject_nextId (st : EditorState) :
    (deselectObject st).nextId = st.nextId := by
  cases hs : st.selected with
  | none =>
    cases hd : st.isDragging
    · rw [deselectObject_eq_nf st hs hd]
    · rw [deselectObject_eq_nt st hs hd]
  | some j =>
    cases hd : st.isDragging
    · rw [deselectObject_eq_sf st j hs hd]
    · rw [deselectObject_eq_st st j hs hd]

theorem deselectObject_nameCounter (st : EditorState) :
    (deselectObject st).nameCounter = st.nameCounter := by
  cases hs : st.selected with
  | none =>
    cases hd : st.isDragging
    · rw [deselectObject_eq_nf st hs hd]
    · rw [deselectObject_eq_nt st hs hd]
  | some j =>
    cases hd : st.isDragging
    · rw [deselectObject_eq_sf st j hs hd]
    · rw [deselectObject_eq_st st j hs hd]

theorem deselectObject_objCore (st : EditorState) :
    (deselectObject st).loadedObjects.map objCore =
      st.loadedObjects.map objCore := by
  cases hs : st.selected with
  | none =>
    cases hd : st.isDragging
    · rw [deselectObject_eq_nf st hs hd]
    · rw [deselectObject_eq_nt st hs hd]
      exact map_objCore_eq fun d => rfl
  | some j =>
    cases hd : st.isDragging
    · rw [deselectObject_eq_sf st j hs hd]
      exact map_objCore_eq fun d => by
        by_cases hdi : d.obj.id = j <;>
          simp [hdi, objCore, updateBoxHelperState_false]
    · rw [deselectObject_eq_st st j hs hd]
      exact (map_objCore_eq
          (g := fun d => updateBoxHelperState d false false)
          fun d => rfl).trans
        (map_objCore_eq
          (g := fun d =>
            if d.obj.id = j then
              updateBoxHelperState { d with selectedClass := false }
                false false
            else d)
          fun d => by
            by_cases hdi : d.obj.id = j <;>
              simp [hdi, objCore, updateBoxHelperState_false])

theorem deselectObject_pairwise (st : EditorState)
    (h : st.loadedObjects.Pairwise fun d1 d2 => d1.obj.id ≠ d2.obj.id) :
    (deselectObject st).loadedObjects.Pairwise
      (fun d1 d2 => d1.obj.id ≠ d2.obj.id) := by
  cases hs : st.selected with
  | none =>
    cases hd : st.isDragging
    · rw [deselectObject_eq_nf st hs hd]; exact h
    · rw [deselectObject_eq_nt st hs hd]
      exact pairwise_ids_map (fun d => rfl) h
  | some j =>
    cases hd : st.isDragging
    · rw [deselectObject_eq_sf st j hs hd]
      exact pairwise_ids_map (fun d => by
        by_cases hdi : d.obj.id = j <;>
          simp [hdi, updateBoxHelperState_false]) h
    · rw [deselectObject_eq_st st j hs hd]
      exact pairwise_ids_map (fun d => rfl)
        (pairwise_ids_map (fun d => by
          by_cases hdi : d.obj.id = j <;>
            simp [hdi, updateBoxHelperState_false]) h)

theorem class_false_of_ne {dd : ObjectData} {o : Option ℕ}
    (hiff : dd.selectedClass = true ↔ o = some dd.obj.id)
    (hne : o ≠ some dd.obj.id) : dd.selectedClass = false := by
  cases hcl : dd.selectedClass
  · rfl
  · exact absurd (hiff.mp hcl) hne

theorem deselectObject_cleared (st : EditorState) (h : SelectionInv st) :
    ∀ dd ∈ (deselectObject st).loadedObjects,
      dd.selectedClass = false ∧ dd.helper.visible = false := by
  obtain ⟨hpw, hmem, hcls, hvis⟩ := h
  cases hs : st.selected with
  | none =>
    cases hd : st.isDragging
    · rw [deselectObject_eq_nf st hs hd]
      intro dd hdd
      refine ⟨class_false_of_ne (hcls dd hdd) (by rw [hs]; simp), ?_⟩
      exact (hvis hd dd hdd).2 (by rw [hs]; simp)
    · rw [deselectObject_eq_nt st hs hd]
      rintro dd hdd
      rcases List.mem_map.mp hdd with ⟨d, hdmem, rfl⟩
      rw [updateBoxHelperState_false]
      exact ⟨class_false_of_ne (hcls d hdmem) (by rw [hs]; simp), rfl⟩
  | some j =>
    cases hd : st.isDragging
    · rw [deselectObject_eq_sf st j hs hd]
      rintro dd hdd
      rcases List.mem_map.mp hdd with ⟨d, hdmem, rfl⟩
      by_cases hdi : d.obj.id = j
      · rw [if_pos hdi, updateBoxHelperState_false]
        exact ⟨rfl, rfl⟩
      · rw [if_neg hdi]
        refine ⟨class_false_of_ne (hcls d hdmem) ?_, ?_⟩
        · rw [hs]
          intro hcon
          exact hdi (Option.some.inj hcon).symm
        · refine (hvis hd d hdmem).2 ?_
          rw [hs]
          intro hcon
          exact hdi (Option.some.inj hcon).symm
    · rw [deselectObject_eq_st st j hs hd]
      rintro dd hdd
      rcases List.mem_map.mp hdd with ⟨d1, hd1mem, rfl⟩
      rcases List.mem_map.mp hd1mem with ⟨d, hdmem, rfl⟩
      rw [updateBoxHelperState_false]
      refine ⟨?_, rfl⟩
      by_cases hdi : d.obj.id = j
      · rw [if_pos hdi, updateBoxHelperState_false]
      · rw [if_neg hdi]
        refine class_false_of_ne (hcls d hdmem) ?_
        rw [hs]
        intro hcon
        exact hdi (Option.some.inj hcon).symm

theorem deselectObject_inv (st : EditorState) (h : SelectionInv st) :
    SelectionInv (deselectObject st) :=
  inv_of_cleared (deselectObject_pairwise st h.1)
    (deselectObject_selected st) (deselectObject_cleared st h)

theorem selectObject_eq_none (st : EditorState) (i : ℕ)
    (hf : st.loadedObjects.find? (fun d => d.obj.id = i) = none) :
    selectObject st i = st := by
  unfold selectObject
  rw [hf]

theorem selectObject_eq_already (st : EditorState) (i : ℕ) (dd0 : ObjectData)
    (hf : st.loadedObjects.find? (fun d => d.obj.id = i) = some dd0)
    (hsel : st.selected = some i) : selectObject st i = st := by
  unfold selectObject
  rw [hf]
  exact if_pos hsel

set_option maxRecDepth 4000 in
theorem selectObject_eq_pos (st : EditorState) (i : ℕ) (dd0 : ObjectData)
    (hf : st.loadedObjects.find? (fun d => d.obj.id = i) = some dd0)
    (hsel : ¬ st.selected = some i) :
    selectObject st i =
      { deselectObject st with
        selected := some i
        attached := some i
        mode := TMode.translate
        loadedObjects := (deselectObject st).loadedObjects.map fun d =>
          if d.obj.id = i then
            { d with selectedClass := true, helper := ⟨BOX_HELPER_COLOR_ACTIVE, true⟩ }
          else { d with helper := ⟨BOX_HELPER_COLOR_INACTIVE, false⟩ } } := by
  have hd1 : (deselectObject st).isDragging = false :=
    deselectObject_isDragging st
  unfold selectObject
  rw [hf]
  rw [if_neg hsel]
  dsimp only [setTransformMode]
  rw [hd1]
  simp only [Bool.false_and, List.map_map]
  congr 1
  refine congrArg (fun f => List.map f _) (funext fun d => ?_)
  by_cases hdi : d.obj.id = i
  · simp [Function.comp, hdi, updateBoxHelperState_true,
      updateBoxHelperState_false]
  · have hdi' : ¬ i = d.obj.id := fun hcon => hdi hcon.symm
    simp [Function.comp, hdi, hdi', updateBoxHelperState_true,
      updateBoxHelperState_false]

theorem selectObject_inv (st : EditorState) (i : ℕ) (h : SelectionInv st) :
    SelectionInv (selectObject st i) := by
  cases hf : st.loadedObjects.find? (fun d => d.obj.id = i) with
  | none => rw [selectObject_eq_none st i hf]; exact h
  | some dd0 =>
    by_cases hsel : st.selected = some i
    · rw [selectObject_eq_already st i dd0 hf hsel]; exact h
    · rw [selectObject_eq_pos st i dd0 hf hsel]
      have hDpw := deselectObject_pairwise st h.1
      have hDcl := deselectObject_cleared st h
      have hDobjs := deselectObject_objCore st
      have hfid : dd0.obj.id = i := by
        have hp := List.find?_some hf
        simpa using hp
      have hfmem : dd0 ∈ st.loadedObjects := List.mem_of_find?_eq_some hf
      refine ⟨?_, ?_, ?_, ?_⟩
      · refine pairwise_ids_map (fun d => ?_) hDpw
        by_cases hdi : d.obj.id = i <;> simp [hdi]
      · intro i' hi'
        have hii : i' = i := by
          have := Option.some.inj hi'
          exact this.symm
        subst hii
        have hex : ∃ d ∈ (deselectObject st).loadedObjects, d.obj.id = i' :=
          exists_id_of_objCore_eq hDobjs ⟨dd0, hfmem, hfid⟩
        rcases hex with ⟨d1, hd1, hd1id⟩
        refine ⟨_, List.mem_map_of_mem _ hd1, ?_⟩
        by_cases hdi : d1.obj.id = i'
        · simp [hdi]
        · exact absurd hd1id hdi
      · rintro dd hdd
        rcases List.mem_map.mp hdd with ⟨d, hdmem, rfl⟩
        by_cases hdi : d.obj.id = i
        · rw [if_pos hdi]
          simp [hdi]
        · rw [if_neg hdi]
          have hcl := (hDcl d hdmem).1
          simp only [hcl]
          constructor
          · intro hcon; cases hcon
          · intro hcon
            exact absurd (Option.some.inj hcon).symm hdi
      · intro _ dd hdd
        rcases List.mem_map.mp hdd with ⟨d, hdmem, rfl⟩
        by_cases hdi : d.obj.id = i
        · rw [if_pos hdi]
          constructor
          · intro _; exact ⟨rfl, rfl⟩
          · intro hcon
            exact absurd (by simp [hdi]) hcon
        · rw [if_neg hdi]
          constructor
          · intro hcon
            exact absurd (Option.some.inj hcon).symm hdi
          · intro _; rfl

theorem selectObject_noop (st : EditorState) (i : ℕ) (h : SelectionInv st)
    (hsel : st.selected = some i) : selectObject st i = st := by
  rcases h.2.1 i hsel with ⟨dd, hdd, hid⟩
  cases hf : st.loadedObjects.find? (fun d => d.obj.id = i) with
  | none =>
    have hnone := List.find?_eq_none.mp hf dd hdd
    exact absurd (by simp [hid]) hnone
  | some dd0 => exact selectObject_eq_already st i dd0 hf hsel

theorem applySelOps_inv (ops : List SelOp) :
    ∀ st, SelectionInv st → SelectionInv (applySelOps ops st) := by
  induction ops with
  | nil => intro st h; exact h
  | cons op ops ih =>
    intro st h
    cases op with
    | select i => exact ih _ (selectObject_inv st i h)
    | deselect => exact ih _ (deselectObject_inv st h)

/-! ### Claim theorems: selection -/

/-- C8: from any state satisfying the selection invariant, every sequence of
`selectObject` / `deselectObject` calls preserves it — at most one object is
marked selected, the selection is always a member of the registry, and while
no drag is in progress exactly the selected object's highlight is visible in
active styling; moreover selecting the already-selected object is a complete
no-op. -/
theorem selection_invariant (st : EditorState) (h : SelectionInv st) :
    (∀ ops, SelectionInv (applySelOps ops st)) ∧
    (∀ i, st.selected = some i → selectObject st i = st) :=
  ⟨fun ops => applySelOps_inv ops st h,
   fun i hsel => selectObject_noop st i h hsel⟩

/-- C8 witness: the startup state satisfies the invariant, and it is
preserved across a select of an unknown id followed by a deselect. -/
theorem selection_invariant_witness :
    SelectionInv (applySelOps [SelOp.select 3, SelOp.deselect] emptyEditor) :=
  (selection_invariant emptyEditor
    (by refine ⟨?_, ?_, ?_, ?_⟩ <;> simp [emptyEditor])).1
    [SelOp.select 3, SelOp.deselect]

/-! ### Import and dimension-edit lemmas -/

theorem parsePrompts_eq_none_of_invalid {wP hP dP : Option (Option ℚ)}
    (hbad : InvalidPrompts wP hP dP) : parsePrompts wP hP dP = none := by
  cases wP with
  | none => rfl
  | some w? =>
    cases hP with
    | none => rfl
    | some h? =>
      cases dP with
      | none => rfl
      | some d? =>
        rcases hbad with hc | hc | hc | hc | hc | hc |
          ⟨w, hc, h0⟩ | ⟨hv, hc, h0⟩ | ⟨dv, hc, h0⟩
        · exact Option.noConfusion hc
        · exact Option.noConfusion hc
        · exact Option.noConfusion hc
        · obtain rfl : w? = none := Option.some.inj hc
          rfl
        · obtain rfl : h? = none := Option.some.inj hc
          cases w? <;> rfl
        · obtain rfl : d? = none := Option.some.inj hc
          cases w? <;> cases h? <;> rfl
        · obtain rfl : w? = some w := Option.some.inj hc
          cases h? with
          | none => rfl
          | some h2 =>
            cases d? with
            | none => rfl
            | some d2 =>
              simp [parsePrompts, h0]
        · obtain rfl : h? = some hv := Option.some.inj hc
          cases w? with
          | none => rfl
          | some w2 =>
            cases d? with
            | none => rfl
            | some d2 =>
              simp [parsePrompts, h0]
        · obtain rfl : d? = some dv := Option.some.inj hc
          cases w? with
          | none => rfl
          | some w2 =>
            cases h? with
            | none => rfl
            | some h2 =>
              simp [parsePrompts, h0]

/-! ### Claim theorems: error handling -/

/-- C9: when any dimension prompt of an import or edit flow is cancelled, or
any entered dimension is non-numeric or non-positive, the operation aborts
atomically: the whole editor state — registry, list rows, helpers, selection,
counters — is returned completely unchanged. -/
theorem invalid_input_no_mutation (st : EditorState) (nb : Option Box3)
    (i : ℕ) (wP hP dP : Option (Option ℚ))
    (hbad : InvalidPrompts wP hP dP) :
    importFromFile st nb wP hP dP = st ∧
    promptAndSetDimensions st i wP hP dP = st := by
  have hp := parsePrompts_eq_none_of_invalid hbad
  constructor
  · unfold importFromFile
    rw [hp]
  · unfold promptAndSetDimensions
    cases hf : st.loadedObjects.find? (fun d => d.obj.id = i) with
    | none => rfl
    | some dta => rw [hp]

/-- C9 witness: a cancelled width prompt leaves the startup state unchanged
in both flows. -/
theorem invalid_input_no_mutation_witness :
    importFromFile emptyEditor none none none none = emptyEditor ∧
    promptAndSetDimensions emptyEditor 0 none none none = emptyEditor :=
  invalid_input_no_mutation emptyEditor none 0 none none none (Or.inl rfl)

theorem clampEps_pos (q : ℚ) (hq : 0 ≤ q) : 0 < clampEps q := by
  unfold clampEps
  split
  · norm_num
  · next hne => exact lt_of_le_of_ne hq (Ne.symm hne)

theorem clampEps_of_pos (q : ℚ) (hq : 0 < q) : clampEps q = q :=
  if_neg (ne_of_gt hq)

theorem getLast?_append_singleton {α : Type} (l : List α) (a : α) :
    (l ++ [a]).getLast? = some a := by
  exact List.getLast?_concat l

theorem selectObject_objCore (st : EditorState) (i : ℕ) :
    (selectObject st i).loadedObjects.map objCore =
      st.loadedObjects.map objCore := by
  cases hf : st.loadedObjects.find? (fun d => d.obj.id = i) with
  | none => rw [selectObject_eq_none st i hf]
  | some dd0 =>
    by_cases hsel : st.selected = some i
    · rw [selectObject_eq_already st i dd0 hf hsel]
    · rw [selectObject_eq_pos st i dd0 hf hsel]
      refine (map_objCore_eq fun d => ?_).trans (deselectObject_objCore st)
      by_cases hdi : d.obj.id = i <;> simp [hdi, objCore]

theorem map_dims_eq (L : List ObjectData) :
    L.map (fun dta => getObjectDimensions dta.obj) =
      (L.map objCore).map (fun oc => getObjectDimensions oc.1) := by
  rw [List.map_map]
  rfl

theorem map_boxProj_eq (L : List ObjectData) :
    L.map (fun dta => (getObjectAABB dta.obj).map
      (fun bb => (bb.min.y, bb.min.x + bb.max.x, bb.min.z + bb.max.z))) =
      (L.map objCore).map (fun oc => (getObjectAABB oc.1).map
        (fun bb => (bb.min.y, bb.min.x + bb.max.x,
          bb.min.z + bb.max.z))) := by
  rw [List.map_map]
  rfl

/-- The geometry of a freshly imported object with a proper, non-degenerate
natural box: its computed dimensions equal the requested ones exactly, its
box minimum Y is 0 and it is centered on X and Z, and it carries the fresh
id. -/
theorem importBuild_core (nid : ℕ) (b : Box3) (w h d : ℚ)
    (hw : 0 < w) (hh : 0 < h) (hd : 0 < d)
    (hx : b.min.x < b.max.x) (hy : b.min.y < b.max.y)
    (hz : b.min.z < b.max.z) :
    getObjectDimensions (importBuild nid (some b) w h d).obj = ⟨w, h, d⟩ ∧
    (getObjectAABB (importBuild nid (some b) w h d).obj).map
      (fun bb => (bb.min.y, bb.min.x + bb.max.x, bb.min.z + bb.max.z)) =
      some (0, 0, 0) ∧
    (importBuild nid (some b) w h d).obj.id = nid := by
  have hsx : (0 : ℚ) < b.max.x - b.min.x := sub_pos.mpr hx
  have hsy : (0 : ℚ) < b.max.y - b.min.y := sub_pos.mpr hy
  have hsz : (0 : ℚ) < b.max.z - b.min.z := sub_pos.mpr hz
  have hwx : (0 : ℚ) ≤ w / (b.max.x - b.min.x) := le_of_lt (div_pos hw hsx)
  have hhy : (0 : ℚ) ≤ h / (b.max.y - b.min.y) := le_of_lt (div_pos hh hsy)
  have hdz : (0 : ℚ) ≤ d / (b.max.z - b.min.z) := le_of_lt (div_pos hd hsz)
  have hmx : w / (b.max.x - b.min.x) * b.min.x ≤
      w / (b.max.x - b.min.x) * b.max.x :=
    mul_le_mul_of_nonneg_left (le_of_lt hx) hwx
  have hmy : h / (b.max.y - b.min.y) * b.min.y ≤
      h / (b.max.y - b.min.y) * b.max.y :=
    mul_le_mul_of_nonneg_left (le_of_lt hy) hhy
  have hmz : d / (b.max.z - b.min.z) * b.min.z ≤
      d / (b.max.z - b.min.z) * b.max.z :=
    mul_le_mul_of_nonneg_left (le_of_lt hz) hdz
  refine ⟨?_, ?_, rfl⟩ <;>
  · simp only [importBuild, importInitialSize, getObjectAABB,
      getObjectDimensions, Box3.size, scaleLo, scaleHi, Option.map, one_mul,
      min_self, max_self, min_eq_left (le_of_lt hx),
      max_eq_right (le_of_lt hx), min_eq_left (le_of_lt hy),
      max_eq_right (le_of_lt hy), min_eq_left (le_of_lt hz),
      max_eq_right (le_of_lt hz), add_zero,
      clampEps_of_pos _ hsx, clampEps_of_pos _ hsy, clampEps_of_pos _ hsz,
      min_eq_left hmx, max_eq_right hmx, min_eq_left hmy, max_eq_right hmy,
      min_eq_left hmz, max_eq_right hmz]
    simp only [Vec3.mk.injEq, Prod.mk.injEq, Option.some.injEq]
    refine ⟨?_, ?_, ?_⟩ <;> (try field_simp) <;> (try ring)

/-! ### Claim theorems: import round-trip -/

/-- C3 (amended): importing a mesh whose natural box is proper with strictly
positive extent on every axis, with valid positive requested dimensions
`(w, h, d)`, registers an object whose computed dimensions equal `(w, h, d)`
exactly, whose box minimum Y is 0 and whose box is centered on X and Z; and
the degenerate-dimension clamp keeps every clamped size component strictly
positive, so the per-axis scale factor never divides by zero.  (On an axis
whose natural extent is zero the computed dimension is 0, not the requested
value — see the counterexample.) -/
theorem import_roundtrip_amended (st : EditorState) (b : Box3) (w h d : ℚ)
    (hw : 0 < w) (hh : 0 < h) (hd : 0 < d)
    (hx : b.min.x < b.max.x) (hy : b.min.y < b.max.y)
    (hz : b.min.z < b.max.z) :
    ((importFromFile st (some b) (some (some w)) (some (some h))
        (some (some d))).loadedObjects.map
          (fun dta => getObjectDimensions dta.obj)).getLast? =
      some ⟨w, h, d⟩ ∧
    ((importFromFile st (some b) (some (some w)) (some (some h))
        (some (some d))).loadedObjects.map
          (fun dta => (getObjectAABB dta.obj).map
            (fun bb => (bb.min.y, bb.min.x + bb.max.x,
              bb.min.z + bb.max.z)))).getLast? = some (some (0, 0, 0)) ∧
    (∀ q : ℚ, 0 ≤ q → 0 < clampEps q) := by
  have hp : parsePrompts (some (some w)) (some (some h)) (some (some d)) =
      some (w, h, d) := by
    simp [parsePrompts, not_le.mpr hw, not_le.mpr hh, not_le.mpr hd]
  have hcore := importBuild_core st.nextId b w h d hw hh hd hx hy hz
  unfold importFromFile
  rw [hp]
  dsimp only
  refine ⟨?_, ?_, fun q hq => clampEps_pos q hq⟩
  · rw [map_dims_eq, selectObject_objCore]
    dsimp only
    rw [List.map_append, List.map_append]
    simp only [List.map_cons, List.map_nil]
    rw [getLast?_append_singleton]
    rw [show (objCore (importBuild st.nextId (some b) w h d)).1 =
        (importBuild st.nextId (some b) w h d).obj from rfl]
    rw [hcore.1]
  · rw [map_boxProj_eq, selectObject_objCore]
    dsimp only
    rw [List.map_append, List.map_append]
    simp only [List.map_cons, List.map_nil]
    rw [getLast?_append_singleton]
    rw [show (objCore (importBuild st.nextId (some b) w h d)).1 =
        (importBuild st.nextId (some b) w h d).obj from rfl]
    rw [hcore.2.1]

/-- C3 witness: importing a unit natural cube at requested dimensions
`(2, 3, 4)` yields exactly those dimensions, grounded and centered, and the
clamp of a zero natural dimension is strictly positive. -/
theorem import_roundtrip_amended_witness :
    ((importFromFile emptyEditor (some ⟨⟨0, 0, 0⟩, ⟨1, 1, 1⟩⟩)
        (some (some 2)) (some (some 3))
        (some (some 4))).loadedObjects.map
          (fun dta => getObjectDimensions dta.obj)).getLast? =
      some ⟨2, 3, 4⟩ ∧
    ((importFromFile emptyEditor (some ⟨⟨0, 0, 0⟩, ⟨1, 1, 1⟩⟩)
        (some (some 2)) (some (some 3))
        (some (some 4))).loadedObjects.map
          (fun dta => (getObjectAABB dta.obj).map
            (fun bb => (bb.min.y, bb.min.x + bb.max.x,
              bb.min.z + bb.max.z)))).getLast? = some (some (0, 0, 0)) ∧
    (0 : ℚ) < clampEps 0 :=
  ⟨(import_roundtrip_amended emptyEditor ⟨⟨0, 0, 0⟩, ⟨1, 1, 1⟩⟩ 2 3 4
      (by norm_num) (by norm_num) (by norm_num) (by norm_num) (by norm_num)
      (by norm_num)).1,
   (import_roundtrip_amended emptyEditor ⟨⟨0, 0, 0⟩, ⟨1, 1, 1⟩⟩ 2 3 4
      (by norm_num) (by norm_num) (by norm_num) (by norm_num) (by norm_num)
      (by norm_num)).2.1,
   (import_roundtrip_amended emptyEditor ⟨⟨0, 0, 0⟩, ⟨1, 1, 1⟩⟩ 2 3 4
      (by norm_num) (by norm_num) (by norm_num) (by norm_num) (by norm_num)
      (by norm_num)).2.2 0 le_rfl⟩

/-- C3 counterexample: a successful import of a degenerate mesh (natural box
`[0,0]×[0,1]×[0,1]`, zero extent on X) with valid requested dimensions
`(1, 1, 1)` produces computed dimensions `(0, 1, 1)`, not `(1, 1, 1)` — the
clamp avoids the division by zero but cannot restore the requested width. -/
theorem import_roundtrip_counterexample :
    ((importFromFile emptyEditor (some ⟨⟨0, 0, 0⟩, ⟨0, 1, 1⟩⟩)
        (some (some 1)) (some (some 1))
        (some (some 1))).loadedObjects.map
          (fun dta => getObjectDimensions dta.obj)) = [⟨0, 1, 1⟩] ∧
    ((⟨0, 1, 1⟩ : Vec3) ≠ ⟨1, 1, 1⟩) := by
  constructor
  · have hp : parsePrompts (some (some 1)) (some (some 1)) (some (some 1)) =
        some (1, 1, 1) := by norm_num [parsePrompts]
    unfold importFromFile
    rw [hp]
    dsimp only
    rw [map_dims_eq, selectObject_objCore]
    simp only [emptyEditor, List.nil_append, List.map_cons, List.map_nil]
    norm_num [importBuild, importInitialSize, clampEps, Box3.size,
      getObjectAABB, getObjectDimensions, scaleLo, scaleHi, min_def, max_def,
      objCore]
  · intro hcon
    have := congrArg Vec3.x hcon
    norm_num at this

/-! ### Claim theorems: dimension editing -/

/-- C2 (code-bug evaluation): a centered unit cube imported at requested
dimensions `(1, 1, 1)` sits grounded (box minimum Y is 0, at position
`y = 1/2`).  Editing it to the very same dimensions `(1, 1, 1)` recomputes
the scale correctly (dimensions stay `(1, 1, 1)`) and preserves the X and Z
position, but sets `position.y` to the negated minimum of a box computed at
the *old* position — so the box minimum Y afterwards is `-1/2`, not 0: the
edit flow un-grounds a grounded object instead of re-grounding it. -/
theorem edit_dimensions_unground_eval :
    ((importFromFile emptyEditor
        (some ⟨⟨-(1/2), -(1/2), -(1/2)⟩, ⟨1/2, 1/2, 1/2⟩⟩)
        (some (some 1)) (some (some 1)) (some (some 1))).loadedObjects.map
          (fun dta => (getObjectAABB dta.obj).map (fun bb => bb.min.y))) =
      [some 0] ∧
    ((promptAndSetDimensions
        (importFromFile emptyEditor
          (some ⟨⟨-(1/2), -(1/2), -(1/2)⟩, ⟨1/2, 1/2, 1/2⟩⟩)
          (some (some 1)) (some (some 1)) (some (some 1)))
        0 (some (some 1)) (some (some 1))
        (some (some 1))).loadedObjects.map
          (fun dta => (getObjectDimensions dta.obj, dta.obj.position.x,
            dta.obj.position.z,
            (getObjectAABB dta.obj).map (fun bb => bb.min.y)))) =
      [(⟨1, 1, 1⟩, 0, 0, some (-(1/2)))] ∧
    (-(1/2) : ℚ) ≠ 0 := by
  have hst1 : importFromFile emptyEditor
      (some ⟨⟨-(1/2), -(1/2), -(1/2)⟩, ⟨1/2, 1/2, 1/2⟩⟩)
      (some (some 1)) (some (some 1)) (some (some 1)) =
      { loadedObjects :=
          [⟨⟨0, ⟨0, 1/2, 0⟩, ⟨1, 1, 1⟩,
            some ⟨⟨-(1/2), -(1/2), -(1/2)⟩, ⟨1/2, 1/2, 1/2⟩⟩⟩,
            ⟨1, 1, 1⟩, true, ⟨BOX_HELPER_COLOR_ACTIVE, true⟩⟩]
        selected := some 0
        isDragging := false
        orbitEnabled := true
        mode := TMode.translate
        attached := some 0
        nextId := 1
        nameCounter := 1 } := by
    norm_num [importFromFile, parsePrompts, importBuild, importInitialSize,
      clampEps, Box3.size, getObjectAABB, scaleLo, scaleHi, min_def, max_def,
      emptyEditor, selectObject, deselectObject, setTransformMode,
      updateBoxHelperState, List.find?]
    intro hcon
    cases hcon
  rw [hst1]
  refine ⟨?_, ?_, by norm_num⟩
  · norm_num [getObjectAABB, scaleLo, scaleHi, min_def, max_def]
  · norm_num [promptAndSetDimensions, parsePrompts, List.find?,
      getObjectAABB, getObjectDimensions, Box3.size, scaleLo, scaleHi,
      min_def, max_def]
